import Mathlib

/-!
Verification development for `context_engine/src/context_engine.py`:
a Flask endpoint that selects an LLM provider by credential priority,
builds a prompt, invokes the provider, and returns a structured
"language lesson". The definitions below are a shallow embedding of
that module; external collaborators (Flask, langchain, the LLM
providers, the JSON parser of `JsonOutputParser`) are modelled as
oracles or primitive outcomes, while every piece of logic written in
the module itself (request validation, provider priority, prompt
assembly, result wrapping, error formatting, the pydantic schema) is
translated directly.
-/

/-- JSON values, as delivered by `request.get_json()` and produced by the
model output parsing. Numbers are collapsed to `Int`: no claim depends on
float payloads, only on a value being or not being a string. -/
inductive Json where
  | str : String → Json
  | num : Int → Json
  | bool : Bool → Json
  | null : Json
  | arr : List Json → Json
  | obj : List (String × Json) → Json

namespace Json

/-- First-occurrence key lookup in a JSON object body (Python `dict`
semantics: keys are unique; first match is the value). -/
def lookupKey (fields : List (String × Json)) (k : String) : Option Json :=
  List.lookup k fields

/-- Python `k in data` for a dict body. -/
def hasKey (fields : List (String × Json)) (k : String) : Bool :=
  (lookupKey fields k).isSome

end Json

/-- `os.environ` as far as the module reads it (lines 17-29): each name is
either unset (`none`) or set to a string (possibly empty). -/
structure Env where
  OPENROUTER_API_KEY : Option String
  OPENROUTER_MODEL_NAME : Option String
  GEMINI_API_KEY : Option String
  GEMINI_MODEL_NAME : Option String
  OLLAMA_BASE_URL : Option String
  OLLAMA_MODEL_NAME : Option String
deriving DecidableEq, Repr

/-- Python truthiness of an `os.environ.get` result, as used in
`if OPENROUTER_API_KEY:` / `elif GEMINI_API_KEY:`: `None` and the empty
string are falsy, any other string is truthy. -/
def truthyKey : Option String → Bool
  | none => false
  | some s => !s.isEmpty

/-- Line 17: `OPENROUTER_API_KEY = os.environ.get("OPENROUTER_API_KEY")`. -/
def OPENROUTER_API_KEY (env : Env) : Option String :=
  env.OPENROUTER_API_KEY

/-- Line 18: model name with default `"google/gemini-flash-1.5"`. -/
def OPENROUTER_MODEL_NAME (env : Env) : String :=
  (env.OPENROUTER_MODEL_NAME).getD "google/gemini-flash-1.5"

/-- Line 24: `GEMINI_API_KEY = os.environ.get("GEMINI_API_KEY")`. -/
def GEMINI_API_KEY (env : Env) : Option String :=
  env.GEMINI_API_KEY

/-- Line 25: model name with default `"gemini-1.5-flash-latest"`. -/
def GEMINI_MODEL_NAME (env : Env) : String :=
  (env.GEMINI_MODEL_NAME).getD "gemini-1.5-flash-latest"

/-- Line 29: model name with default `"gemma3:4b-it-qat"`. -/
def OLLAMA_MODEL_NAME (env : Env) : String :=
  (env.OLLAMA_MODEL_NAME).getD "gemma3:4b-it-qat"

/-- The three provider branches of `get_language_lesson` (lines 146, 160,
173). -/
inductive Provider where
  | openRouter
  | googleGemini
  | ollama
deriving DecidableEq, Repr

/-- The provider-priority chain of lines 146-183: `if OPENROUTER_API_KEY:`
then OpenRouter, `elif GEMINI_API_KEY:` then Google Gemini, `else` Ollama. -/
def selectProvider (env : Env) : Provider :=
  if truthyKey (OPENROUTER_API_KEY env) then Provider.openRouter
  else if truthyKey (GEMINI_API_KEY env) then Provider.googleGemini
  else Provider.ollama

/-- The `provider` string assigned in each branch (lines 147, 161, 174). -/
def providerName : Provider → String
  | Provider.openRouter => "OpenRouter"
  | Provider.googleGemini => "Google Gemini"
  | Provider.ollama => "Ollama"

/-- The `model_name_in_use` string assigned in each branch
(lines 148, 162, 175). -/
def modelNameInUse (env : Env) : Provider → String
  | Provider.openRouter => OPENROUTER_MODEL_NAME env
  | Provider.googleGemini => GEMINI_MODEL_NAME env
  | Provider.ollama => OLLAMA_MODEL_NAME env

/-- Only the Google Gemini branch binds the schema natively via
`model.with_structured_output(LanguageLesson)` (line 165); the OpenRouter
and Ollama branches go through `JsonOutputParser` plus textual format
instructions (lines 151-157, 177-183). -/
def usesNativeStructuredOutput : Provider → Bool
  | Provider.openRouter => false
  | Provider.googleGemini => true
  | Provider.ollama => false

/-!
Pydantic schema (lines 32-53). Validation follows pydantic defaults:
every declared field is required (`Field(description=...)` supplies no
default), a `str` field accepts exactly JSON strings, a
`Union[str, JapaneseTextBlock]` field accepts a string or a nested
object validating as `JapaneseTextBlock`, a `List[...]` field accepts
exactly JSON arrays of validating elements, and keys not declared on the
model are ignored (pydantic default `extra="ignore"`).
-/

/-- A `str` field accepts a JSON string and nothing else. -/
def validateStr : Json → Bool
  | Json.str _ => true
  | _ => false

/-- A required field of a model: present and accepted by the field
validator; a missing key is a validation error. -/
def requiredField (fields : List (String × Json)) (k : String)
    (validator : Json → Bool) : Bool :=
  match Json.lookupKey fields k with
  | some v => validator v
  | none => false

/-- `class JapaneseTextBlock(BaseModel)` (lines 32-35): three required
`str` fields `lm`, `lrm`, `lt`; undeclared keys are ignored. -/
def validateJapaneseTextBlock : Json → Bool
  | Json.obj fields =>
      requiredField fields "lm" validateStr &&
      requiredField fields "lrm" validateStr &&
      requiredField fields "lt" validateStr
  | _ => false

/-- A `Union[str, JapaneseTextBlock]` field (lines 38, 42, 46, 50). -/
def validateStrOrBlock (v : Json) : Bool :=
  validateStr v || validateJapaneseTextBlock v

/-- `class VocabularyItem(BaseModel)` (lines 37-39). -/
def validateVocabularyItem : Json → Bool
  | Json.obj fields =>
      requiredField fields "vocabulary" validateStrOrBlock &&
      requiredField fields "translation" validateStr
  | _ => false

/-- `class UsageSentence(BaseModel)` (lines 41-43). -/
def validateUsageSentence : Json → Bool
  | Json.obj fields =>
      requiredField fields "usage" validateStrOrBlock &&
      requiredField fields "translation" validateStr
  | _ => false

/-- `class AdvancedContent(BaseModel)` (lines 45-47). -/
def validateAdvancedContent : Json → Bool
  | Json.obj fields =>
      requiredField fields "content" validateStrOrBlock &&
      requiredField fields "explanation" validateStr
  | _ => false

/-- A `List[T]` field accepts a JSON array all of whose elements validate. -/
def validateListOf (elemValidator : Json → Bool) : Json → Bool
  | Json.arr items => items.all elemValidator
  | _ => false

/-- `class LanguageLesson(BaseModel)` (lines 49-53): four required fields
`directTranslation`, `relatedVocabulary`, `practicalUsage`,
`advancedContent`. -/
def validateLanguageLesson : Json → Bool
  | Json.obj fields =>
      requiredField fields "directTranslation" validateStrOrBlock &&
      requiredField fields "relatedVocabulary"
        (validateListOf validateVocabularyItem) &&
      requiredField fields "practicalUsage"
        (validateListOf validateUsageSentence) &&
      requiredField fields "advancedContent" validateAdvancedContent
  | _ => false

/-!
Prompt construction. `ChatPromptTemplate.from_messages` (lines 152-156,
166-169, 178-182) produces role-tagged messages; below they are modelled
after template rendering, so the doubled braces of the Python literal
appear as single brace characters (written `\x7b`/`\x7d`) and the
`{word}`/`{home_language}`/`{foreign_language}`/`{format_instructions}`
variables are function parameters.
-/

/-- Message roles used by the module (`"system"` / `"human"`). -/
inductive Role where
  | system
  | human
deriving DecidableEq, Repr

/-- A role-tagged prompt message. -/
structure Message where
  role : Role
  content : String
deriving DecidableEq, Repr

/-- The part of the `SYSTEM_PROMPT` literal (lines 107-123) before the
Japanese special-instructions block. -/
def SYSTEM_PROMPT_TASK_HEADER : String :=
  "\nYou are an expert language tutor. Your task is to generate a comprehensive language lesson based on user input.\nThe user will provide a word or phrase, in their home language, and a target foreign language.\nYou MUST respond with a single, valid JSON object that strictly adheres to the schema provided.\nDo NOT add any commentary, markdown, or any text outside of the JSON object.\n\n"

/-- The Japanese special-instructions block of the `SYSTEM_PROMPT` literal:
the JapaneseTextBlock formatting rule (lines 113-120), through the closing
brace of the `lm`/`lrm`/`lt` example object. -/
def JAPANESE_FORMATTING_RULE : String :=
  "--- Special Instructions for Japanese ---\nWhen the target language is Japanese, you MUST provide detailed phonetic and translation information for any field that contains Japanese sentences or complex phrases.\nSpecifically, for the `directTranslation`, `relatedVocabulary.vocabulary`, `practicalUsage.usage`, and `advancedContent.content` fields, you MUST use the following JSON object structure instead of a simple string:\n\x7b\n  \"lm\": \"The main Japanese line, with Furigana in parentheses right after the corresponding Kanji. Example: \x27日本語(にほんご)を勉強(べんきょう)しています\x27.\",\n  \"lrm\": \"The Romaji pronunciation of the entire line, e.g., \x27Nihongo o benkyō shite imasu\x27.\",\n  \"lt\": \"The direct English translation of the line, e.g., \x27I am studying Japanese.\x27.\"\n\x7d\n"

/-- The part of the `SYSTEM_PROMPT` literal after the rule's example object
(lines 121-123). -/
def SYSTEM_PROMPT_TRAILER : String :=
  "For simpler, single-word vocabulary items without complex Kanji, you may use a simple string.\nThe separate `translation` or `explanation` fields should still be used for broader context, grammar points, or cultural nuances, not for the direct line-by-line translation which belongs in the `lt` field.\n"

/-- `SYSTEM_PROMPT` (lines 107-123), rendered: the verbatim literal is the
concatenation of the three pieces above (split only to name the
Japanese-rule section; concatenating them restores the source text). -/
def SYSTEM_PROMPT : String :=
  SYSTEM_PROMPT_TASK_HEADER ++ JAPANESE_FORMATTING_RULE ++ SYSTEM_PROMPT_TRAILER

/-- Line 137: `home_language = "English"`. -/
def HOME_LANGUAGE : String := "English"

/-- The human message template (lines 154, 168, 180), rendered. -/
def humanMessage (word home_language foreign_language : String) : String :=
  "Generate a language lesson for the word/phrase \x27" ++ word ++
    "\x27 from " ++ home_language ++ " to " ++ foreign_language ++ "."

/-- The trailing system message of the parser branches (lines 155, 181),
rendered with the parser-supplied format instructions. -/
def formatInstructionsMessage (format_instructions : String) : String :=
  "JSON Output Format:\n" ++ format_instructions

/-- The message list built in the selected branch: lines 152-156
(OpenRouter), 166-169 (Google Gemini), 178-182 (Ollama). The Gemini branch
has no format-instructions message because the schema is bound via
`with_structured_output` instead. -/
def buildPrompt (p : Provider)
    (word foreign_language format_instructions : String) : List Message :=
  match p with
  | Provider.openRouter =>
      [Message.mk Role.system SYSTEM_PROMPT,
       Message.mk Role.human (humanMessage word HOME_LANGUAGE foreign_language),
       Message.mk Role.system (formatInstructionsMessage format_instructions)]
  | Provider.googleGemini =>
      [Message.mk Role.system SYSTEM_PROMPT,
       Message.mk Role.human (humanMessage word HOME_LANGUAGE foreign_language)]
  | Provider.ollama =>
      [Message.mk Role.system SYSTEM_PROMPT,
       Message.mk Role.human (humanMessage word HOME_LANGUAGE foreign_language),
       Message.mk Role.system (formatInstructionsMessage format_instructions)]

/-- The system instruction of a built prompt: the content of its leading
system message (every branch puts `SYSTEM_PROMPT` first). -/
def systemInstruction (msgs : List Message) : String :=
  match msgs with
  | m :: _ => m.content
  | [] => ""

/-- `pat` occurs as a contiguous substring of `s`. -/
def ContainsSubstr (pat s : String) : Prop :=
  ∃ pre post, s = pre ++ pat ++ post

/-- ASCII lowercasing of a character (spec-side helper for the claimed
"case-insensitive exact match" on language names). -/
def lowerChar (c : Char) : Char :=
  if 65 ≤ c.toNat ∧ c.toNat ≤ 90 then Char.ofNat (c.toNat + 32) else c

/-- ASCII lowercasing of a string (spec-side helper). -/
def lowerString (s : String) : String :=
  String.mk (s.data.map lowerChar)

/-- Spec-side predicate: the claimed "equals \"Japanese\" (case-insensitive
exact match)" condition on a request's `foreignLanguage` value. -/
def isJapaneseLanguage (foreign_language : String) : Bool :=
  lowerString foreign_language == lowerString "Japanese"

/-!
Typed lesson values, as produced by the Gemini branch's
`with_structured_output(LanguageLesson)` (line 165): pydantic model
instances, dumped back to JSON by `model_dump()` (line 199).
-/

/-- Typed `JapaneseTextBlock` instance (lines 32-35). -/
structure JapaneseTextBlock where
  lm : String
  lrm : String
  lt : String
deriving DecidableEq, Repr

/-- A validated `Union[str, JapaneseTextBlock]` field value. -/
inductive StrOrBlock where
  | plain (s : String)
  | block (b : JapaneseTextBlock)
deriving DecidableEq, Repr

/-- Typed `VocabularyItem` instance (lines 37-39). -/
structure VocabularyItem where
  vocabulary : StrOrBlock
  translation : String
deriving DecidableEq, Repr

/-- Typed `UsageSentence` instance (lines 41-43). -/
structure UsageSentence where
  usage : StrOrBlock
  translation : String
deriving DecidableEq, Repr

/-- Typed `AdvancedContent` instance (lines 45-47). -/
structure AdvancedContent where
  content : StrOrBlock
  explanation : String
deriving DecidableEq, Repr

/-- Typed `LanguageLesson` instance (lines 49-53). -/
structure LanguageLesson where
  directTranslation : StrOrBlock
  relatedVocabulary : List VocabularyItem
  practicalUsage : List UsageSentence
  advancedContent : AdvancedContent
deriving DecidableEq, Repr

/-- `model_dump()` of a union field value. -/
def StrOrBlock.dump : StrOrBlock → Json
  | StrOrBlock.plain s => Json.str s
  | StrOrBlock.block b =>
      Json.obj [("lm", Json.str b.lm), ("lrm", Json.str b.lrm),
                ("lt", Json.str b.lt)]

/-- `model_dump()` of a `VocabularyItem`. -/
def VocabularyItem.dump (v : VocabularyItem) : Json :=
  Json.obj [("vocabulary", v.vocabulary.dump),
            ("translation", Json.str v.translation)]

/-- `model_dump()` of a `UsageSentence`. -/
def UsageSentence.dump (u : UsageSentence) : Json :=
  Json.obj [("usage", u.usage.dump), ("translation", Json.str u.translation)]

/-- `model_dump()` of an `AdvancedContent`. -/
def AdvancedContent.dump (a : AdvancedContent) : Json :=
  Json.obj [("content", a.content.dump),
            ("explanation", Json.str a.explanation)]

/-- `lesson_result.model_dump()` (line 199). -/
def LanguageLesson.model_dump (l : LanguageLesson) : Json :=
  Json.obj [("directTranslation", l.directTranslation.dump),
            ("relatedVocabulary", Json.arr (l.relatedVocabulary.map VocabularyItem.dump)),
            ("practicalUsage", Json.arr (l.practicalUsage.map UsageSentence.dump)),
            ("advancedContent", l.advancedContent.dump)]

/-!
Per-request pipeline. External effects (wrapper/client construction, the
upstream chat-completion call, `parse_json_markdown` inside langchain's
`JsonOutputParser`, and the structured-output binding of the Gemini
branch) are oracles supplied per request; the module's own control flow
around them is explicit.
-/

/-- Outcomes of the external steps of one request. `invokeRaw` and
`invokeStructured` receive the request's `word` and `foreignLanguage`
values, which `chain.invoke` passes to the chain (lines 191-195); an
`Except.error` models a raised exception. -/
structure Behavior where
  format_instructions : String
  construct : Except String Unit
  invokeRaw : Json → Json → Except String String
  parseJson : String → Except String Json
  invokeStructured : Json → Json → Except String LanguageLesson

/-- What `chain.invoke` returns on success: the OpenRouter/Ollama chains
end in `JsonOutputParser`, which yields a plain parsed JSON value (a
`dict`); the Gemini chain ends in `with_structured_output`, which yields a
pydantic `LanguageLesson` instance. -/
inductive ChainValue where
  | dict (j : Json)
  | model (l : LanguageLesson)

/-- One `chain.invoke(...)` call (line 191) for the selected provider.

For OpenRouter and Ollama the chain is `prompt | model | parser` with
`parser = JsonOutputParser(pydantic_object=LanguageLesson)` (lines 151,
157, 177, 183). Per `langchain_core.output_parsers.json`, that parser
parses the raw model text as JSON (`parse_json_markdown`) and returns the
parsed value as-is; the `pydantic_object` argument is used only for
`get_format_instructions()`, not for validation. On a JSON syntax error it
raises `OutputParserException("Invalid json output: " + text)`.

For Google Gemini the chain is `prompt | model.with_structured_output(LanguageLesson)`
(lines 165, 170), whose success value is a `LanguageLesson` instance. -/
def runChain (p : Provider) (b : Behavior) (word foreign_language : Json) :
    Except String ChainValue :=
  match p with
  | Provider.openRouter =>
      match b.invokeRaw word foreign_language with
      | Except.error e => Except.error e
      | Except.ok raw =>
          match b.parseJson raw with
          | Except.ok j => Except.ok (ChainValue.dict j)
          | Except.error _ => Except.error ("Invalid json output: " ++ raw)
  | Provider.googleGemini =>
      match b.invokeStructured word foreign_language with
      | Except.error e => Except.error e
      | Except.ok l => Except.ok (ChainValue.model l)
  | Provider.ollama =>
      match b.invokeRaw word foreign_language with
      | Except.error e => Except.error e
      | Except.ok raw =>
          match b.parseJson raw with
          | Except.ok j => Except.ok (ChainValue.dict j)
          | Except.error _ => Except.error ("Invalid json output: " ++ raw)

/-- The `except` branch's message (lines 207-210). -/
def errorMessage (provider model_name_in_use e : String) : String :=
  "Failed to generate lesson with " ++ provider ++ " using model \x27" ++
    model_name_in_use ++
    "\x27. Please check your API keys and model configuration. Error: " ++ e

/-- Observable outcome of one request: the HTTP status and body parts,
plus instrumentation (whether the provider-priority chain ran, which
provider/model it picked, and how many `chain.invoke` calls happened). -/
structure Outcome where
  status : Nat
  errorMsg : Option String
  lessonBody : Option Json
  selectionPerformed : Bool
  selectedProvider : Option String
  selectedModel : Option String
  invokeCount : Nat

/-- The 400 response of line 133. -/
def badRequestOutcome : Outcome :=
  { status := 400
    errorMsg := some "Missing \x27word\x27 or \x27foreignLanguage\x27 in request body"
    lessonBody := none
    selectionPerformed := false
    selectedProvider := none
    selectedModel := none
    invokeCount := 0 }

/-- The `try` block (lines 139-203) with the `except` handler (lines
205-211), for a body that passed validation: select the provider by
credential priority, construct the wrapper and chain (`b.construct`
failing models an exception raised there, caught before any invocation),
invoke the chain once, and wrap the result — `model_dump()` for a pydantic
instance, the raw dict otherwise (lines 197-203). The `if not chain:`
guard of line 185 is dead code: every branch assigns a chain. -/
def handleValidBody (env : Env) (b : Behavior) (word foreign_language : Json) :
    Outcome :=
  let provider := selectProvider env
  let pname := providerName provider
  let mname := modelNameInUse env provider
  match b.construct with
  | Except.error e =>
      { status := 500, errorMsg := some (errorMessage pname mname e)
        lessonBody := none, selectionPerformed := true
        selectedProvider := some pname, selectedModel := some mname
        invokeCount := 0 }
  | Except.ok _ =>
      match runChain provider b word foreign_language with
      | Except.error e =>
          { status := 500, errorMsg := some (errorMessage pname mname e)
            lessonBody := none, selectionPerformed := true
            selectedProvider := some pname, selectedModel := some mname
            invokeCount := 1 }
      | Except.ok (ChainValue.dict j) =>
          { status := 200, errorMsg := none, lessonBody := some j
            selectionPerformed := true
            selectedProvider := some pname, selectedModel := some mname
            invokeCount := 1 }
      | Except.ok (ChainValue.model l) =>
          { status := 200, errorMsg := none
            lessonBody := some l.model_dump
            selectionPerformed := true
            selectedProvider := some pname, selectedModel := some mname
            invokeCount := 1 }

/-- `data['word']` / `data['foreignLanguage']` (lines 135-136), read after
the presence check, so the `getD` default is never reached. -/
def requestField (fields : List (String × Json)) (k : String) : Json :=
  (Json.lookupKey fields k).getD Json.null

/-- The endpoint `get_language_lesson` (lines 126-211). `data` is the
`request.get_json()` result: `none` when no JSON body was delivered, else
the body's key/value pairs. Line 132 rejects a falsy body (`None` or the
empty dict) and a body missing `word` or `foreignLanguage`; otherwise
lines 135-136 read the two values (presence is guaranteed by the check,
so the `getD` defaults are never used) and the `try` block runs. -/
def get_language_lesson (env : Env)
    (data : Option (List (String × Json))) (b : Behavior) : Outcome :=
  match data with
  | none => badRequestOutcome
  | some fields =>
      if fields.isEmpty then badRequestOutcome
      else if !(Json.hasKey fields "word") then badRequestOutcome
      else if !(Json.hasKey fields "foreignLanguage") then badRequestOutcome
      else
        handleValidBody env b (requestField fields "word")
          (requestField fields "foreignLanguage")

/-!
Spec-side definitions: checkers written from the claims' words (never
from the module), used to compare the claimed acceptance conditions with
the module's validators, plus concrete inputs for witnesses and
counterexamples.
-/

/-- Written from the claim's words, for comparison with the module's
validator: a `directTranslation` value is accepted exactly when it is a
plain string or an object with exactly the three string fields `lm`,
`lrm`, `lt` — no more, no fewer. -/
def specDirectTranslationAccepts : Json → Bool
  | Json.str _ => true
  | Json.obj fields =>
      requiredField fields "lm" validateStr &&
      requiredField fields "lrm" validateStr &&
      requiredField fields "lt" validateStr &&
      fields.all (fun kv => kv.1 == "lm" || kv.1 == "lrm" || kv.1 == "lt")
  | _ => false

/-- Written from the amended claim's words: a `directTranslation` value is
accepted exactly when it is a plain string or an object whose `lm`, `lrm`
and `lt` keys are present with string values, keys not declared on the
model being ignored. -/
def specAmendedDirectTranslationAccepts : Json → Bool
  | Json.str _ => true
  | Json.obj fields =>
      requiredField fields "lm" validateStr &&
      requiredField fields "lrm" validateStr &&
      requiredField fields "lt" validateStr
  | _ => false

/-- Environment with both cloud credentials set. -/
def envBothKeys : Env :=
  { OPENROUTER_API_KEY := some "or-key", OPENROUTER_MODEL_NAME := none
    GEMINI_API_KEY := some "gm-key", GEMINI_MODEL_NAME := none
    OLLAMA_BASE_URL := none, OLLAMA_MODEL_NAME := none }

/-- Environment with only the Gemini credential set. -/
def envGeminiOnly : Env :=
  { OPENROUTER_API_KEY := none, OPENROUTER_MODEL_NAME := none
    GEMINI_API_KEY := some "gm-key", GEMINI_MODEL_NAME := none
    OLLAMA_BASE_URL := none, OLLAMA_MODEL_NAME := none }

/-- Environment with no credential set (Ollama fallback). -/
def envNoKeys : Env :=
  { OPENROUTER_API_KEY := none, OPENROUTER_MODEL_NAME := none
    GEMINI_API_KEY := none, GEMINI_MODEL_NAME := none
    OLLAMA_BASE_URL := none, OLLAMA_MODEL_NAME := none }

/-- A request body with both required keys and string values. -/
def sampleBody : List (String × Json) :=
  [("word", Json.str "hello"), ("foreignLanguage", Json.str "Spanish")]

/-- A request body with both required keys but non-string values. -/
def nonStringBody : List (String × Json) :=
  [("word", Json.num 5), ("foreignLanguage", Json.null)]

/-- A JSON object that is valid JSON but fails the `LanguageLesson`
schema (every required field missing). -/
def schemaInvalidJson : Json := Json.obj [("foo", Json.num 1)]

/-- Behavior of a request whose upstream call succeeds with text that
parses as JSON but does not satisfy the schema. -/
def behaviorSchemaInvalid : Behavior :=
  { format_instructions := "fmt"
    construct := Except.ok ()
    invokeRaw := fun _ _ => Except.ok "\x7b\"foo\": 1\x7d"
    parseJson := fun _ => Except.ok schemaInvalidJson
    invokeStructured := fun _ _ => Except.error "unused" }

/-- Behavior of a request whose upstream call succeeds with text that is
not valid JSON. -/
def behaviorJsonSyntaxError : Behavior :=
  { format_instructions := "fmt"
    construct := Except.ok ()
    invokeRaw := fun _ _ => Except.ok "not json"
    parseJson := fun _ => Except.error "Expecting value"
    invokeStructured := fun _ _ => Except.error "unused" }

/-- Behavior of a request whose provider construction raises (for
instance an import or client-configuration error) before any
invocation. -/
def behaviorConstructFails : Behavior :=
  { format_instructions := "fmt"
    construct := Except.error "ImportError: langchain_ollama"
    invokeRaw := fun _ _ => Except.ok ""
    parseJson := fun _ => Except.error ""
    invokeStructured := fun _ _ => Except.error "" }

/-- A JSON object missing at least one `directTranslation` field shape:
extra key added to an otherwise complete `lm`/`lrm`/`lt` object. -/
def blockWithExtraKey : Json :=
  Json.obj [("lm", Json.str "a"), ("lrm", Json.str "b"),
            ("lt", Json.str "c"), ("note", Json.str "d")]

/-!
Helper lemmas shared by the claim theorems.
-/

/-- A body with a present key is not the empty dict. -/
theorem hasKey_not_isEmpty {fields : List (String × Json)} {k : String}
    (h : Json.hasKey fields k = true) : fields.isEmpty = false := by
  cases fields with
  | nil => simp [Json.hasKey, Json.lookupKey, List.lookup] at h
  | cons hd tl => rfl

/-- A required field whose key is absent fails validation. -/
theorem requiredField_of_missing {fields : List (String × Json)} {k : String}
    (h : Json.hasKey fields k = false) (validator : Json → Bool) :
    requiredField fields k validator = false := by
  unfold requiredField
  unfold Json.hasKey at h
  cases hl : Json.lookupKey fields k with
  | none => rfl
  | some x => rw [hl] at h; simp at h

/-- `SYSTEM_PROMPT` differs from every rendered format-instructions
message: the first differs at its first character (a newline) from the
latter's leading `J`. -/
theorem SYSTEM_PROMPT_ne_formatInstructionsMessage (fi : String) :
    SYSTEM_PROMPT ≠ formatInstructionsMessage fi := by
  intro h
  have h1 : SYSTEM_PROMPT.data.head? = some (Char.ofNat 10) := by decide
  have h2 : (formatInstructionsMessage fi).data.head? = some (Char.ofNat 74) := by
    cases fi with
    | mk l => rfl
  rw [h] at h1
  rw [h1] at h2
  exact absurd (Option.some.inj h2) (by decide)

/-- The `except`-branch message contains the provider name. -/
theorem errorMessage_contains_provider (p m e : String) :
    ContainsSubstr p (errorMessage p m e) :=
  ⟨"Failed to generate lesson with ",
   " using model \x27" ++ m ++
     "\x27. Please check your API keys and model configuration. Error: " ++ e,
   by simp [errorMessage, String.append_assoc]⟩

/-- The `except`-branch message contains the model identifier. -/
theorem errorMessage_contains_model (p m e : String) :
    ContainsSubstr m (errorMessage p m e) :=
  ⟨"Failed to generate lesson with " ++ p ++ " using model \x27",
   "\x27. Please check your API keys and model configuration. Error: " ++ e,
   by simp [errorMessage, String.append_assoc]⟩

/-- A body that passed the presence check reaches the `try` block. -/
theorem get_language_lesson_valid (env : Env)
    (fields : List (String × Json)) (b : Behavior)
    (hw : Json.hasKey fields "word" = true)
    (hf : Json.hasKey fields "foreignLanguage" = true) :
    get_language_lesson env (some fields) b =
      handleValidBody env b (requestField fields "word")
        (requestField fields "foreignLanguage") := by
  unfold get_language_lesson
  simp [hasKey_not_isEmpty hw, hw, hf]

/-- Structure of the `try`-block outcome: the selection instrumentation
always records the credential-priority choice, and the status is 200 or
500 with the wrapped error message. -/
theorem handleValidBody_spec (env : Env) (b : Behavior) (word fl : Json) :
    (handleValidBody env b word fl).selectionPerformed = true ∧
    (handleValidBody env b word fl).selectedProvider =
      some (providerName (selectProvider env)) ∧
    (handleValidBody env b word fl).selectedModel =
      some (modelNameInUse env (selectProvider env)) ∧
    (handleValidBody env b word fl).invokeCount ≤ 1 ∧
    (b.construct = Except.ok () →
      (handleValidBody env b word fl).invokeCount = 1) ∧
    ((handleValidBody env b word fl).status = 200 ∨
      ((handleValidBody env b word fl).status = 500 ∧
        ∃ e, (handleValidBody env b word fl).errorMsg =
          some (errorMessage (providerName (selectProvider env))
            (modelNameInUse env (selectProvider env)) e))) := by
  unfold handleValidBody
  cases hc : b.construct with
  | error e => simp [hc]
  | ok u =>
      cases hr : runChain (selectProvider env) b word fl with
      | error e => simp [hr]
      | ok cv => cases cv <;> simp [hr]

/-!
Claim theorems.
-/

/-- C1: for every process configuration, provider selection is
deterministic and follows the fixed priority order: a truthy OpenRouter
credential selects the OpenRouter adapter regardless of other
credentials; otherwise a truthy Gemini credential selects the Gemini
adapter; otherwise the Ollama adapter is selected. -/
theorem selectProvider_priority (env : Env) :
    (truthyKey (OPENROUTER_API_KEY env) = true →
      selectProvider env = Provider.openRouter) ∧
    (truthyKey (OPENROUTER_API_KEY env) = false →
      truthyKey (GEMINI_API_KEY env) = true →
      selectProvider env = Provider.googleGemini) ∧
    (truthyKey (OPENROUTER_API_KEY env) = false →
      truthyKey (GEMINI_API_KEY env) = false →
      selectProvider env = Provider.ollama) := by
  refine ⟨fun h1 => ?_, fun h1 h2 => ?_, fun h1 h2 => ?_⟩
  · simp [selectProvider, h1]
  · simp [selectProvider, h1, h2]
  · simp [selectProvider, h1, h2]

/-- C1 witness: the three priority cases at concrete environments. -/
theorem selectProvider_priority_witness :
    selectProvider envBothKeys = Provider.openRouter ∧
    selectProvider envGeminiOnly = Provider.googleGemini ∧
    selectProvider envNoKeys = Provider.ollama :=
  ⟨(selectProvider_priority envBothKeys).1 (by decide),
   (selectProvider_priority envGeminiOnly).2.1 (by decide) (by decide),
   (selectProvider_priority envNoKeys).2.2 (by decide) (by decide)⟩

/-- C2 counterexample: at `foreignLanguage = "Spanish"` the system
instruction still contains the JapaneseTextBlock formatting rule
(`SYSTEM_PROMPT` is a constant), so "contains the rule iff the language
is Japanese (case-insensitively)" fails as stated. -/
theorem japanese_rule_not_conditional :
    ¬ (ContainsSubstr JAPANESE_FORMATTING_RULE
        (systemInstruction (buildPrompt Provider.ollama "hello" "Spanish" "fmt"))
      ↔ isJapaneseLanguage "Spanish" = true) := by
  intro h
  have hc : ContainsSubstr JAPANESE_FORMATTING_RULE
      (systemInstruction (buildPrompt Provider.ollama "hello" "Spanish" "fmt")) :=
    ⟨SYSTEM_PROMPT_TASK_HEADER, SYSTEM_PROMPT_TRAILER, rfl⟩
  exact absurd (h.mp hc) (by decide)

/-- C2 amended: for every provider and request, the constructed prompt's
system instruction contains the JapaneseTextBlock formatting rule,
regardless of the `foreignLanguage` value (the rule conditions itself on
Japanese inside the prompt text; the module never branches on the
language). -/
theorem system_instruction_always_contains_japanese_rule
    (p : Provider) (word foreign_language format_instructions : String) :
    ContainsSubstr JAPANESE_FORMATTING_RULE
      (systemInstruction (buildPrompt p word foreign_language format_instructions)) := by
  cases p <;> exact ⟨SYSTEM_PROMPT_TASK_HEADER, SYSTEM_PROMPT_TRAILER, rfl⟩

/-- C5: for every request, the built prompt ends with the trailing
system message carrying the schema format instructions exactly when the
selected adapter does not natively support structured output, and that
message occurs in the prompt at all exactly under the same condition
(the natively structured Gemini branch omits it entirely). -/
theorem format_instructions_iff_not_native
    (p : Provider) (word foreign_language format_instructions : String) :
    ((buildPrompt p word foreign_language format_instructions).getLast? =
        some (Message.mk Role.system (formatInstructionsMessage format_instructions))
      ↔ usesNativeStructuredOutput p = false) ∧
    (Message.mk Role.system (formatInstructionsMessage format_instructions) ∈
        buildPrompt p word foreign_language format_instructions
      ↔ usesNativeStructuredOutput p = false) := by
  cases p
  case openRouter =>
    refine ⟨?_, ?_⟩ <;> simp [buildPrompt, usesNativeStructuredOutput]
  case ollama =>
    refine ⟨?_, ?_⟩ <;> simp [buildPrompt, usesNativeStructuredOutput]
  case googleGemini =>
    refine ⟨⟨fun h => ?_, fun h => ?_⟩, ⟨fun h => ?_, fun h => ?_⟩⟩
    · simp [buildPrompt, Message.mk.injEq] at h
    · simp [usesNativeStructuredOutput] at h
    · simp [buildPrompt, Message.mk.injEq] at h
      exact absurd h.symm (SYSTEM_PROMPT_ne_formatInstructionsMessage format_instructions)
    · simp [usesNativeStructuredOutput] at h

/-- C6: validation against the `LanguageLesson` schema rejects every JSON
object missing at least one of the four top-level required fields. -/
theorem missing_top_field_rejected (fields : List (String × Json))
    (h : Json.hasKey fields "directTranslation" = false ∨
         Json.hasKey fields "relatedVocabulary" = false ∨
         Json.hasKey fields "practicalUsage" = false ∨
         Json.hasKey fields "advancedContent" = false) :
    validateLanguageLesson (Json.obj fields) = false := by
  rcases h with h | h | h | h <;>
    simp [validateLanguageLesson, requiredField_of_missing h]

/-- C6 witness: an object carrying three of the four required fields but
missing `directTranslation` is rejected. -/
theorem missing_top_field_rejected_witness :
    Json.hasKey [("relatedVocabulary", Json.arr []),
      ("practicalUsage", Json.arr []),
      ("advancedContent", Json.obj [("content", Json.str "c"),
        ("explanation", Json.str "e")])] "directTranslation" = false ∧
    validateLanguageLesson (Json.obj [("relatedVocabulary", Json.arr []),
      ("practicalUsage", Json.arr []),
      ("advancedContent", Json.obj [("content", Json.str "c"),
        ("explanation", Json.str "e")])]) = false :=
  ⟨by decide, missing_top_field_rejected _ (Or.inl (by decide))⟩

/-- C7 counterexample: an object with the three `lm`/`lrm`/`lt` string
fields plus an extra key is accepted by the module's validator (pydantic
ignores undeclared keys), while the claimed "exactly the three fields, no
more" condition rejects it. -/
theorem directTranslation_extra_key_accepted :
    validateStrOrBlock blockWithExtraKey = true ∧
    specDirectTranslationAccepts blockWithExtraKey = false := by
  exact ⟨by decide, by decide⟩

/-- C7 amended: a `directTranslation` value is accepted exactly when it
is a plain string or an object whose `lm`, `lrm` and `lt` keys hold
strings; keys not declared on the model are ignored, and any other shape
is rejected. -/
theorem directTranslation_acceptance (v : Json) :
    validateStrOrBlock v = specAmendedDirectTranslationAccepts v := by
  cases v <;> rfl

/-- C3 counterexample: with no cloud credential the Ollama branch (not
natively structured) is selected; when the model's raw output parses as
JSON but fails the `LanguageLesson` schema, the endpoint still answers
200 with the unvalidated value — `JsonOutputParser` performs no schema
validation. -/
theorem parser_path_returns_unvalidated :
    usesNativeStructuredOutput (selectProvider envNoKeys) = false ∧
    validateLanguageLesson schemaInvalidJson = false ∧
    (get_language_lesson envNoKeys (some sampleBody)
      behaviorSchemaInvalid).status = 200 ∧
    (get_language_lesson envNoKeys (some sampleBody)
      behaviorSchemaInvalid).lessonBody = some schemaInvalidJson :=
  ⟨rfl, by decide, rfl, rfl⟩

/-- C3 amended: on a provider that is not natively structured, the raw
model output is parsed as JSON and a JSON-syntax failure makes the
request fail with the wrapped 500 error; but no schema validation
follows — any successfully parsed JSON value is returned as a 200
success, validated or not. -/
theorem parser_path_behavior (env : Env)
    (fields : List (String × Json)) (b : Behavior)
    (hnat : usesNativeStructuredOutput (selectProvider env) = false)
    (hw : Json.hasKey fields "word" = true)
    (hf : Json.hasKey fields "foreignLanguage" = true)
    (hc : b.construct = Except.ok ())
    (raw : String)
    (hraw : b.invokeRaw (requestField fields "word")
      (requestField fields "foreignLanguage") = Except.ok raw) :
    (∀ e, b.parseJson raw = Except.error e →
      (get_language_lesson env (some fields) b).status = 500 ∧
      (get_language_lesson env (some fields) b).errorMsg =
        some (errorMessage (providerName (selectProvider env))
          (modelNameInUse env (selectProvider env))
          ("Invalid json output: " ++ raw))) ∧
    (∀ j, b.parseJson raw = Except.ok j →
      (get_language_lesson env (some fields) b).status = 200 ∧
      (get_language_lesson env (some fields) b).lessonBody = some j) := by
  rw [get_language_lesson_valid env fields b hw hf]
  cases hsel : selectProvider env with
  | googleGemini => rw [hsel] at hnat; simp [usesNativeStructuredOutput] at hnat
  | openRouter =>
      refine ⟨fun e he => ?_, fun j hj => ?_⟩
      · simp [handleValidBody, runChain, hsel, hc, hraw, he]
      · simp [handleValidBody, runChain, hsel, hc, hraw, hj]
  | ollama =>
      refine ⟨fun e he => ?_, fun j hj => ?_⟩
      · simp [handleValidBody, runChain, hsel, hc, hraw, he]
      · simp [handleValidBody, runChain, hsel, hc, hraw, hj]

/-- C3 amended witness: a raw output that is not valid JSON yields the
wrapped 500 error on the Ollama path. -/
theorem parser_path_behavior_witness :
    (get_language_lesson envNoKeys (some sampleBody)
      behaviorJsonSyntaxError).status = 500 ∧
    (get_language_lesson envNoKeys (some sampleBody)
      behaviorJsonSyntaxError).errorMsg =
      some (errorMessage (providerName (selectProvider envNoKeys))
        (modelNameInUse envNoKeys (selectProvider envNoKeys))
        ("Invalid json output: " ++ "not json")) :=
  (parser_path_behavior envNoKeys sampleBody behaviorJsonSyntaxError rfl
    (by decide) (by decide) rfl "not json" rfl).1 "Expecting value" rfl

/-- C4: a request whose JSON body is absent or lacks `word` or
`foreignLanguage` gets the 400 response with the descriptive message, and
neither provider selection nor any pipeline step runs. -/
theorem missing_fields_client_error (env : Env)
    (data : Option (List (String × Json))) (b : Behavior)
    (h : data = none ∨ ∃ fields, data = some fields ∧
        (Json.hasKey fields "word" = false ∨
         Json.hasKey fields "foreignLanguage" = false)) :
    (get_language_lesson env data b).status = 400 ∧
    (get_language_lesson env data b).errorMsg =
      some "Missing \x27word\x27 or \x27foreignLanguage\x27 in request body" ∧
    (get_language_lesson env data b).selectionPerformed = false ∧
    (get_language_lesson env data b).invokeCount = 0 := by
  have hbad : get_language_lesson env data b = badRequestOutcome := by
    rcases h with rfl | ⟨fields, rfl, hk⟩
    · rfl
    · unfold get_language_lesson
      rcases hk with hk | hk
      · cases he : fields.isEmpty <;> simp [he, hk]
      · cases he : fields.isEmpty
        · cases hkw : Json.hasKey fields "word" <;> simp [he, hk, hkw]
        · simp [he]
  rw [hbad]
  exact ⟨rfl, rfl, rfl, rfl⟩

/-- C4 witness: a body with `word` but no `foreignLanguage` gets the 400
response without selection or invocation. -/
theorem missing_fields_client_error_witness :
    (get_language_lesson envBothKeys (some [("word", Json.str "hi")])
      behaviorSchemaInvalid).status = 400 ∧
    (get_language_lesson envBothKeys (some [("word", Json.str "hi")])
      behaviorSchemaInvalid).errorMsg =
      some "Missing \x27word\x27 or \x27foreignLanguage\x27 in request body" ∧
    (get_language_lesson envBothKeys (some [("word", Json.str "hi")])
      behaviorSchemaInvalid).selectionPerformed = false ∧
    (get_language_lesson envBothKeys (some [("word", Json.str "hi")])
      behaviorSchemaInvalid).invokeCount = 0 :=
  missing_fields_client_error envBothKeys (some [("word", Json.str "hi")])
    behaviorSchemaInvalid (Or.inr ⟨_, rfl, Or.inr (by decide)⟩)

/-- C8 counterexample: a valid request whose provider construction raises
is caught and answered 500, but zero `chain.invoke` calls happen — so
"exactly one provider invocation is attempted" fails as stated. -/
theorem construct_failure_zero_invocations :
    Json.hasKey sampleBody "word" = true ∧
    Json.hasKey sampleBody "foreignLanguage" = true ∧
    (get_language_lesson envNoKeys (some sampleBody)
      behaviorConstructFails).status = 500 ∧
    (get_language_lesson envNoKeys (some sampleBody)
      behaviorConstructFails).invokeCount = 0 :=
  ⟨by decide, by decide, rfl, rfl⟩

/-- C8 amended: for every request that passes body validation, at most
one provider invocation is attempted — exactly one when provider
construction succeeds, and none are retried — and every failure during
construction, invocation or parsing is caught and converted to a single
500 response whose error body names the provider and the model
identifier in use. -/
theorem single_attempt_and_failures_wrapped (env : Env)
    (fields : List (String × Json)) (b : Behavior)
    (hw : Json.hasKey fields "word" = true)
    (hf : Json.hasKey fields "foreignLanguage" = true) :
    (get_language_lesson env (some fields) b).invokeCount ≤ 1 ∧
    (b.construct = Except.ok () →
      (get_language_lesson env (some fields) b).invokeCount = 1) ∧
    ((get_language_lesson env (some fields) b).status = 200 ∨
      ((get_language_lesson env (some fields) b).status = 500 ∧
        ∃ e, (get_language_lesson env (some fields) b).errorMsg =
            some (errorMessage (providerName (selectProvider env))
              (modelNameInUse env (selectProvider env)) e) ∧
          ContainsSubstr (providerName (selectProvider env))
            (errorMessage (providerName (selectProvider env))
              (modelNameInUse env (selectProvider env)) e) ∧
          ContainsSubstr (modelNameInUse env (selectProvider env))
            (errorMessage (providerName (selectProvider env))
              (modelNameInUse env (selectProvider env)) e))) := by
  rw [get_language_lesson_valid env fields b hw hf]
  obtain ⟨-, -, -, h4, h5, h6⟩ :=
    handleValidBody_spec env b (requestField fields "word")
      (requestField fields "foreignLanguage")
  refine ⟨h4, h5, ?_⟩
  rcases h6 with h6 | ⟨hst, e, hmsg⟩
  · exact Or.inl h6
  · exact Or.inr ⟨hst, e, hmsg,
      errorMessage_contains_provider _ _ _, errorMessage_contains_model _ _ _⟩

/-- C8 amended witness: with construction succeeding, exactly one
invocation happens. -/
theorem single_attempt_witness :
    (get_language_lesson envBothKeys (some sampleBody)
      behaviorSchemaInvalid).invokeCount = 1 :=
  (single_attempt_and_failures_wrapped envBothKeys sampleBody
    behaviorSchemaInvalid (by decide) (by decide)).2.1 rfl

/-- C9: request-body validation checks only key presence — every body
containing both `word` and `foreignLanguage`, whatever their values
(empty strings, numbers, null), reaches provider selection and is not
rejected with 400. -/
theorem presence_only_validation (env : Env)
    (fields : List (String × Json)) (b : Behavior)
    (hw : Json.hasKey fields "word" = true)
    (hf : Json.hasKey fields "foreignLanguage" = true) :
    (get_language_lesson env (some fields) b).selectionPerformed = true ∧
    (get_language_lesson env (some fields) b).status ≠ 400 := by
  rw [get_language_lesson_valid env fields b hw hf]
  obtain ⟨h1, -, -, -, -, h6⟩ :=
    handleValidBody_spec env b (requestField fields "word")
      (requestField fields "foreignLanguage")
  refine ⟨h1, ?_⟩
  rcases h6 with h6 | ⟨hst, -⟩
  · rw [h6]; decide
  · rw [hst]; decide

/-- C9 witness: a body whose `word` is a number and whose
`foreignLanguage` is null still reaches provider selection. -/
theorem presence_only_validation_witness :
    Json.hasKey nonStringBody "word" = true ∧
    Json.hasKey nonStringBody "foreignLanguage" = true ∧
    (get_language_lesson envNoKeys (some nonStringBody)
      behaviorSchemaInvalid).selectionPerformed = true :=
  ⟨by decide, by decide,
    (presence_only_validation envNoKeys nonStringBody behaviorSchemaInvalid
      (by decide) (by decide)).1⟩

/-- C10: provider selection is independent of the request: two requests
handled under the same environment record the same selected provider and
model identifier, whatever their bodies and upstream behaviors. -/
theorem selection_independent_of_request (env : Env)
    (f1 f2 : List (String × Json)) (b1 b2 : Behavior)
    (h1w : Json.hasKey f1 "word" = true)
    (h1f : Json.hasKey f1 "foreignLanguage" = true)
    (h2w : Json.hasKey f2 "word" = true)
    (h2f : Json.hasKey f2 "foreignLanguage" = true) :
    (get_language_lesson env (some f1) b1).selectedProvider =
      (get_language_lesson env (some f2) b2).selectedProvider ∧
    (get_language_lesson env (some f1) b1).selectedModel =
      (get_language_lesson env (some f2) b2).selectedModel := by
  rw [get_language_lesson_valid env f1 b1 h1w h1f,
      get_language_lesson_valid env f2 b2 h2w h2f]
  obtain ⟨-, ha2, ha3, -⟩ :=
    handleValidBody_spec env b1 (requestField f1 "word")
      (requestField f1 "foreignLanguage")
  obtain ⟨-, hb2, hb3, -⟩ :=
    handleValidBody_spec env b2 (requestField f2 "word")
      (requestField f2 "foreignLanguage")
  exact ⟨ha2.trans hb2.symm, ha3.trans hb3.symm⟩

/-- C10 witness: two different bodies and behaviors under one
environment record the same provider and model. -/
theorem selection_independent_of_request_witness :
    (get_language_lesson envBothKeys (some sampleBody)
      behaviorSchemaInvalid).selectedProvider =
      (get_language_lesson envBothKeys (some nonStringBody)
        behaviorConstructFails).selectedProvider ∧
    (get_language_lesson envBothKeys (some sampleBody)
      behaviorSchemaInvalid).selectedModel =
      (get_language_lesson envBothKeys (some nonStringBody)
        behaviorConstructFails).selectedModel :=
  selection_independent_of_request envBothKeys sampleBody nonStringBody
    behaviorSchemaInvalid behaviorConstructFails
    (by decide) (by decide) (by decide) (by decide)
